import Mathlib

/-!
Verification of the TapCard vCard delivery service.

The repository has three source variants of the same service:
- src/unnamed/part_000 (version 3.0.0): serves a local contact.vcf file;
- src/unnamed/part_001 (version 5.0.0): proxies cards from a fixed remote
  HTTP origin;
- src/server.js (version 7.0.0): proxies cards from Supabase object storage
  (public or private bucket).

This file gives a shallow embedding of the request handlers of those three
variants and proves properties of the embedded definitions.  Every
definition is translated from the JavaScript source; nondeterministic
external effects (the storage signing call and the outbound HTTP fetch)
are passed in as explicit oracle functions, and the observable outcome of
a request handler is a value of an explicit outcome type.
-/

namespace TapCard

/-! ## JavaScript string semantics -/

/-- Substring scan over character lists: the needle occurs at some
position of the haystack.  This is the semantics of the JavaScript
method String.prototype.includes used at src/server.js line 94 and 107,
src/unnamed/part_000 line 42, and src/unnamed/part_001 line 45. -/
def jsIncludesAux (needle : List Char) : List Char → Bool
  | [] => needle.isEmpty
  | c :: t => needle.isPrefixOf (c :: t) || jsIncludesAux needle t

/-- JavaScript hay.includes(pat): case-sensitive unanchored substring test. -/
def jsIncludes (hay pat : String) : Bool :=
  jsIncludesAux pat.toList hay.toList

/-! ## Classifier (spec section 4.1; the User-Agent branch of each handler) -/

/-- The closed set of delivery categories of the spec data model. -/
inductive DeliveryCategory
  | InlineView
  | ForceDownload
deriving DecidableEq

/-- Classification of one client-identifier string, from the branch
condition userAgent.includes(quoted iPhone) shared by all three variants
(src/server.js line 94, src/unnamed/part_000 line 42, src/unnamed/part_001
line 45). -/
def classify (clientIdentifier : String) : DeliveryCategory :=
  if jsIncludes clientIdentifier "iPhone" then
    DeliveryCategory.InlineView
  else
    DeliveryCategory.ForceDownload

/-- The handlers read the header with req.get, defaulting an absent header
to the empty string: const userAgent = req.get(..) || (src/server.js
line 92). -/
def classifyHeader (userAgentHeader : Option String) : DeliveryCategory :=
  classify (userAgentHeader.getD "")

/-! ## Response headers -/

/-- The two response headers the handlers set explicitly before piping
body bytes.  A field is none when the handler does not set that header. -/
structure Headers where
  contentType : Option String
  contentDisposition : Option String
deriving DecidableEq

/-- The Content-Disposition value built by the download branches:
attachment; filename= quoted fileName (src/server.js line 100). -/
def attachmentDisposition (fileName : String) : String :=
  "attachment; filename=\"" ++ fileName ++ "\""

/-- Inline-view header scheme: contact-card content type, no disposition. -/
def inlineScheme (h : Headers) : Prop :=
  h.contentType = some "text/vcard" ∧ h.contentDisposition = none

/-- Forced-download header scheme: an attachment content disposition. -/
def downloadScheme (h : Headers) : Prop :=
  ∃ f, h.contentDisposition = some (attachmentDisposition f)

/-- The header block carries the scheme of the one delivery category
computed from the client identifier, and satisfies only that scheme. -/
def schemeMatchesCategory (userAgentHeader : Option String) (hdrs : Headers) : Prop :=
  (classifyHeader userAgentHeader = DeliveryCategory.InlineView
    ∧ inlineScheme hdrs ∧ ¬ downloadScheme hdrs)
  ∨ (classifyHeader userAgentHeader = DeliveryCategory.ForceDownload
    ∧ downloadScheme hdrs ∧ ¬ inlineScheme hdrs)

/-! ## JavaScript error values and the catch blocks -/

/-- The shape of a caught JavaScript error value as inspected by the catch
blocks: the axios marker field, the optional upstream response status, and
the optional message string (none models an undefined message field). -/
structure JsError where
  isAxiosError : Bool
  responseStatus : Option Nat
  message : Option String
deriving DecidableEq

/-- What a catch block does: send one status plus JSON body, or itself
throw while evaluating its branch condition. -/
inductive CatchResult
  | respond (status : Nat) (error message : String)
  | handlerThrow
deriving DecidableEq

/-- The 404 JSON response of src/server.js lines 106 and 108. -/
def notFoundResponse : CatchResult :=
  CatchResult.respond 404 "Not Found" "The requested contact card does not exist."

/-- The 500 JSON response of src/server.js line 111. -/
def serverErrorResponse : CatchResult :=
  CatchResult.respond 500 "Internal Server Error" "Could not retrieve the contact card."

/-- The catch block of GET /tap/:cardName in src/server.js lines 103-113.
The first test is error.isAxiosError && error.response &&
error.response.status === 404.  The second test evaluates
error.message.includes; when the message field is undefined that member
access throws a TypeError inside the catch block, modelled by
handlerThrow. -/
def dynamicCatch (e : JsError) : CatchResult :=
  if e.isAxiosError && e.responseStatus == some 404 then
    notFoundResponse
  else
    match e.message with
    | none => CatchResult.handlerThrow
    | some m =>
      if jsIncludes m "not found" then notFoundResponse
      else serverErrorResponse

/-- The catch block of the legacy GET /tap in src/server.js lines 142-149:
same axios-404 test, no message-substring branch, hence total. -/
def legacyCatch (e : JsError) : CatchResult :=
  if e.isAxiosError && e.responseStatus == some 404 then
    notFoundResponse
  else
    serverErrorResponse

/-- The catch block of GET /tap/:cardName in src/unnamed/part_001 lines
55-63: error.response && error.response.status === 404, else 500. -/
def remoteCatch (e : JsError) : CatchResult :=
  if e.responseStatus == some 404 then
    notFoundResponse
  else
    serverErrorResponse

/-! ## Supabase configuration and URL resolution (src/server.js lines 16-58) -/

/-- The environment-derived configuration consulted by src/server.js:
SUPABASE_URL (undefined when unset), the bucket name (default vcf), and
the computed bucket-is-public flag. -/
structure Config where
  supabaseUrl : Option String
  bucket : String
  publicBucket : Bool

/-- JavaScript truthiness of an optional string: undefined and the empty
string are falsy, every other string is truthy.  This is the test
performed by if (!SUPABASE_URL) at src/server.js line 43. -/
def jsTruthy : Option String → Bool
  | none => false
  | some v => !(v == "")

/-- A JavaScript template literal renders undefined as the text
undefined. -/
def jsTemplateStr : Option String → String
  | none => "undefined"
  | some v => v

/-- The characters the JavaScript global encodeURI leaves unescaped:
ASCII letters, digits, and the code points of the punctuation set
;  ,  /  ?  :  @  &  =  +  $  -  _  .  !  ~  *  U+0027  (  )  #. -/
def encodeURIUnescaped (c : Char) : Bool :=
  (decide (65 ≤ c.toNat) && decide (c.toNat ≤ 90)) ||
  (decide (97 ≤ c.toNat) && decide (c.toNat ≤ 122)) ||
  (decide (48 ≤ c.toNat) && decide (c.toNat ≤ 57)) ||
  [59, 44, 47, 63, 58, 64, 38, 61, 43, 36, 45, 95,
    46, 33, 126, 42, 39, 40, 41, 35].contains c.toNat

/-- Upper-case hexadecimal digit of a value below 16. -/
def hexDigitChar (n : Nat) : Char :=
  if n < 10 then Char.ofNat (48 + n) else Char.ofNat (55 + n)

/-- Percent-encoding of one byte value. -/
def percentEncodeByte (b : Nat) : String :=
  "%" ++ String.singleton (hexDigitChar (b / 16)) ++ String.singleton (hexDigitChar (b % 16))

/-- UTF-8 byte values of one character. -/
def utf8ByteValues (c : Char) : List Nat :=
  let n := c.toNat
  if n < 128 then [n]
  else if n < 2048 then [192 + n / 64, 128 + n % 64]
  else if n < 65536 then [224 + n / 4096, 128 + (n / 64) % 64, 128 + n % 64]
  else [240 + n / 262144, 128 + (n / 4096) % 64, 128 + (n / 64) % 64, 128 + n % 64]

/-- The JavaScript global encodeURI, used at src/server.js line 38. -/
def encodeURI (s : String) : String :=
  String.join (s.toList.map (fun c =>
    if encodeURIUnescaped c then String.singleton c
    else String.join ((utf8ByteValues c).map percentEncodeByte)))

/-- buildPublicObjectUrl from src/server.js lines 37-39: the deterministic
public object path inside the configured bucket. -/
def buildPublicObjectUrl (cfg : Config) (path : String) : String :=
  jsTemplateStr cfg.supabaseUrl ++ "/storage/v1/object/public/" ++
    encodeURI cfg.bucket ++ "/" ++ encodeURI path

/-- Outcome of one createSignedUrl call of the storage provider: either a
signed URL or the error value the provider returned (which line 55 of
src/server.js rethrows). -/
inductive SignResult
  | ok (signedUrl : String)
  | err (e : JsError)

/-- The error thrown at src/server.js line 44 when SUPABASE_URL is not
configured: a plain Error value, so no axios marker and no response. -/
def configurationError : JsError :=
  ⟨false, none, some "Supabase URL not configured"⟩

/-- getFetchableUrlForVcf from src/server.js lines 42-58.  The signing
call is modelled by an oracle taking the bucket, the object path and the
expiry in seconds; the source always passes 60 seconds and the configured
bucket, and consults the oracle afresh on every invocation (there is no
cache). -/
def getFetchableUrlForVcf (cfg : Config) (sign : String → String → Nat → SignResult)
    (path : String) : Except JsError String :=
  if !(jsTruthy cfg.supabaseUrl) then
    Except.error configurationError
  else if cfg.publicBucket then
    Except.ok (buildPublicObjectUrl cfg path)
  else
    match sign cfg.bucket path 60 with
    | SignResult.ok u => Except.ok u
    | SignResult.err e => Except.error e

/-! ## Request handlers -/

/-- Outcome of the awaited axios GET: a streamed body or a rejection. -/
inductive FetchResult
  | ok (body : List Nat)
  | err (e : JsError)

/-- Observable outcome of one request: a streamed 200 response with the
explicitly set headers and the piped source bytes, a structured JSON error
response, or a crash of the handler itself (an exception escaping the
catch block, so no response is written). -/
inductive Outcome
  | streamed (headers : Headers) (body : List Nat)
  | errorResponse (status : Nat) (error message : String)
  | crashed
deriving DecidableEq

/-- Lift what a catch block did to a request outcome. -/
def catchResultToOutcome : CatchResult → Outcome
  | CatchResult.respond s a b => Outcome.errorResponse s a b
  | CatchResult.handlerThrow => Outcome.crashed

/-- Object key of the dynamic endpoint, src/server.js line 82. -/
def tapObjectPath (cardName : String) : String :=
  cardName ++ ".vcf"

/-- Attachment display filename of the dynamic endpoint, src/server.js
line 83. -/
def tapFileName (cardName : String) : String :=
  cardName ++ "_Contact.vcf"

/-- The GET /tap/:cardName handler of src/server.js lines 80-114: resolve
a fetchable URL, fetch it as a stream, then branch on the User-Agent
header; any error thrown by resolution or fetch goes to the catch
block. -/
def tapCardHandler (cfg : Config) (sign : String → String → Nat → SignResult)
    (fetch : String → FetchResult) (userAgentHeader : Option String)
    (cardName : String) : Outcome :=
  match getFetchableUrlForVcf cfg sign (tapObjectPath cardName) with
  | Except.error e => catchResultToOutcome (dynamicCatch e)
  | Except.ok fetchUrl =>
    match fetch fetchUrl with
    | FetchResult.err e => catchResultToOutcome (dynamicCatch e)
    | FetchResult.ok body =>
      if jsIncludes (userAgentHeader.getD "") "iPhone" then
        Outcome.streamed ⟨some "text/vcard", none⟩ body
      else
        Outcome.streamed ⟨none, some (attachmentDisposition (tapFileName cardName))⟩ body

/-- Object key of the legacy endpoint, src/server.js line 122. -/
def tapLegacyObjectPath : String :=
  "demo.vcf"

/-- Attachment display filename of the legacy endpoint, src/server.js
line 123. -/
def tapLegacyFileName : String :=
  "Anand_Bhutkar_Contact.vcf"

/-- The legacy GET /tap handler of src/server.js lines 121-150. -/
def tapLegacyHandler (cfg : Config) (sign : String → String → Nat → SignResult)
    (fetch : String → FetchResult) (userAgentHeader : Option String) : Outcome :=
  match getFetchableUrlForVcf cfg sign tapLegacyObjectPath with
  | Except.error e => catchResultToOutcome (legacyCatch e)
  | Except.ok fetchUrl =>
    match fetch fetchUrl with
    | FetchResult.err e => catchResultToOutcome (legacyCatch e)
    | FetchResult.ok body =>
      if jsIncludes (userAgentHeader.getD "") "iPhone" then
        Outcome.streamed ⟨some "text/vcard", none⟩ body
      else
        Outcome.streamed ⟨none, some (attachmentDisposition tapLegacyFileName)⟩ body

/-- The fixed remote origin of src/unnamed/part_001 line 14. -/
def VCARD_BASE_URL : String :=
  "http://tapcard.themediatree.co.in/cards"

/-- The remote file URL of src/unnamed/part_001 line 29: base URL, slash,
card name, fixed extension, with the card name used verbatim. -/
def remoteFileUrlFor (cardName : String) : String :=
  VCARD_BASE_URL ++ "/" ++ cardName ++ ".vcf"

/-- The GET /tap/:cardName handler of src/unnamed/part_001 lines 27-64. -/
def remoteTapCardHandler (fetch : String → FetchResult)
    (userAgentHeader : Option String) (cardName : String) : Outcome :=
  match fetch (remoteFileUrlFor cardName) with
  | FetchResult.err e => catchResultToOutcome (remoteCatch e)
  | FetchResult.ok body =>
    if jsIncludes (userAgentHeader.getD "") "iPhone" then
      Outcome.streamed ⟨some "text/vcard", none⟩ body
    else
      Outcome.streamed ⟨none, some (attachmentDisposition (tapFileName cardName))⟩ body

/-! ## The local-file variant (src/unnamed/part_000) -/

/-- The fixed display filename of src/unnamed/part_000 line 37. -/
def localVcfFileName : String :=
  "Anand_Bhutkar_Contact.vcf"

/-- Header selection of the GET /tap handler of src/unnamed/part_000
lines 42-67: the iPhone branch explicitly sets Content-Type text/vcard
(line 46) and sends the file inline; the other branch calls res.download
with the fixed display filename (line 59), which sets a
Content-Disposition attachment header carrying that filename and leaves
the explicit content type to the framework default. -/
def localTapHeaders (userAgentHeader : Option String) : Headers :=
  if jsIncludes (userAgentHeader.getD "") "iPhone" then
    ⟨some "text/vcard", none⟩
  else
    ⟨none, some (attachmentDisposition localVcfFileName)⟩

/-- What the error callbacks of src/unnamed/part_000 can do: log to the
console, or write a status line plus body. -/
inductive LocalAction
  | logError
  | writeStatus (status : Nat) (body : String)
deriving DecidableEq

/-- The res.sendFile error callback of src/unnamed/part_000 lines 47-54:
always log, and write a 500 only when res.headersSent is false. -/
def sendFileErrCallback (headersSent : Bool) : List LocalAction :=
  LocalAction.logError ::
    (if headersSent then []
     else [LocalAction.writeStatus 500 "Error: Could not process the contact card."])

/-- The res.download error callback of src/unnamed/part_000 lines 59-66. -/
def downloadErrCallback (headersSent : Bool) : List LocalAction :=
  LocalAction.logError ::
    (if headersSent then []
     else [LocalAction.writeStatus 500 "Error: Could not download the file."])

/-! ## Per-request event order of the dynamic proxy handlers -/

/-- The externally observable steps of one GET /tap/:cardName request. -/
inductive Event
  | resolveUrl
  | fetchRemote
  | classifyUA
  | setHeadersEv
  | streamBody
  | respondErrorEv
deriving DecidableEq

/-- The order in which the GET /tap/:cardName handler of src/server.js
lines 85-113 performs its steps, as a function of whether the resolution
await (line 86) and the fetch await (line 90) succeed: the User-Agent is
read and classified at lines 92-94 only after both awaits return, headers
are set at line 96 or 100, and the catch block responds on failure.  The
structure of src/unnamed/part_001 lines 32-63 is identical. -/
def requestTrace (resolveOk fetchOk : Bool) : List Event :=
  if resolveOk then
    if fetchOk then
      [Event.resolveUrl, Event.fetchRemote, Event.classifyUA,
        Event.setHeadersEv, Event.streamBody]
    else
      [Event.resolveUrl, Event.fetchRemote, Event.respondErrorEv]
  else
    [Event.resolveUrl, Event.respondErrorEv]

/-! ## Health endpoint (src/server.js lines 155-162) -/

/-- The JSON body of GET /health. -/
structure HealthBody where
  status : String
  timestamp : String
  service : String
  version : String
deriving DecidableEq

/-- The GET /health handler of src/server.js lines 155-162: a constant
200 response whose timestamp field is the current time rendered by
toISOString.  It consults neither the configuration nor any oracle. -/
def healthHandler (now : String) : Nat × HealthBody :=
  (200, ⟨"healthy", now, "Remote vCard Proxy Service", "7.0.0"⟩)

/-! ## Concrete fixtures used by witnesses and counterexamples -/

/-- A configuration with a public bucket and a set storage URL. -/
def cfgPublic : Config :=
  ⟨some "https://proj.supabase.co", "vcf", true⟩

/-- A configuration with a private bucket and a set storage URL. -/
def cfgPrivate : Config :=
  ⟨some "https://proj.supabase.co", "vcf", false⟩

/-- A configuration whose storage URL is unset. -/
def cfgUnset : Config :=
  ⟨none, "vcf", true⟩

/-- A signing oracle that always returns the same signed URL. -/
def signAlways : String → String → Nat → SignResult :=
  fun _ _ _ => SignResult.ok "https://proj.supabase.co/storage/v1/object/sign/vcf/anand.vcf?token=t"

/-- A fetch oracle that always streams the single byte 66. -/
def fetchOk66 : String → FetchResult :=
  fun _ => FetchResult.ok [66]

/-- A fetch oracle that always rejects with an error value carrying no
axios marker, no response and no message field. -/
def fetchErrNoMsg : String → FetchResult :=
  fun _ => FetchResult.err ⟨false, none, none⟩

/-! ## Helper lemmas -/

/-- The substring scan is sound and complete for the infix relation. -/
theorem jsIncludesAux_iff (needle hay : List Char) :
    jsIncludesAux needle hay = true ↔ needle <:+: hay := by
  induction hay with
  | nil => simp [jsIncludesAux, List.isEmpty_iff, List.infix_nil]
  | cons c t ih =>
    simp [jsIncludesAux, List.isPrefixOf_iff_prefix, ih, List.infix_cons_iff]

/-- jsIncludes decides substring containment. -/
theorem jsIncludes_iff (hay pat : String) :
    jsIncludes hay pat = true ↔ pat.toList <:+: hay.toList :=
  jsIncludesAux_iff pat.toList hay.toList

/-- classify returns InlineView exactly on the substring matches. -/
theorem classify_inline_iff (ua : String) :
    classify ua = DeliveryCategory.InlineView ↔ "iPhone".toList <:+: ua.toList := by
  rw [← jsIncludes_iff]
  cases hcase : jsIncludes ua "iPhone" <;> simp [classify, hcase]

/-- classify returns ForceDownload exactly on the substring misses. -/
theorem classify_force_iff (ua : String) :
    classify ua = DeliveryCategory.ForceDownload ↔ ¬ ("iPhone".toList <:+: ua.toList) := by
  rw [← jsIncludes_iff]
  cases hcase : jsIncludes ua "iPhone" <;> simp [classify, hcase]

/-- Shape of every streamed response of the dynamic Supabase handler: the
header block is exactly determined by the User-Agent substring test. -/
theorem tapCardHandler_streamed_shape (cfg : Config)
    (sign : String → String → Nat → SignResult) (fetch : String → FetchResult)
    (userAgentHeader : Option String) (cardName : String)
    (hdrs : Headers) (body : List Nat)
    (h : tapCardHandler cfg sign fetch userAgentHeader cardName
      = Outcome.streamed hdrs body) :
    (jsIncludes (userAgentHeader.getD "") "iPhone" = true
      ∧ hdrs = ⟨some "text/vcard", none⟩)
    ∨ (jsIncludes (userAgentHeader.getD "") "iPhone" = false
      ∧ hdrs = ⟨none, some (attachmentDisposition (tapFileName cardName))⟩) := by
  unfold tapCardHandler at h
  split at h
  · rename_i e heq
    cases hdc : dynamicCatch e <;> rw [hdc] at h <;> simp [catchResultToOutcome] at h
  · split at h
    · rename_i e heq
      cases hdc : dynamicCatch e <;> rw [hdc] at h <;> simp [catchResultToOutcome] at h
    · split at h
      · rename_i hua
        left
        simp only [Outcome.streamed.injEq] at h
        exact ⟨hua, h.1.symm⟩
      · rename_i hua
        right
        simp only [Outcome.streamed.injEq] at h
        exact ⟨Bool.of_not_eq_true hua, h.1.symm⟩

/-- Shape of every streamed response of the legacy Supabase handler. -/
theorem tapLegacyHandler_streamed_shape (cfg : Config)
    (sign : String → String → Nat → SignResult) (fetch : String → FetchResult)
    (userAgentHeader : Option String) (hdrs : Headers) (body : List Nat)
    (h : tapLegacyHandler cfg sign fetch userAgentHeader
      = Outcome.streamed hdrs body) :
    (jsIncludes (userAgentHeader.getD "") "iPhone" = true
      ∧ hdrs = ⟨some "text/vcard", none⟩)
    ∨ (jsIncludes (userAgentHeader.getD "") "iPhone" = false
      ∧ hdrs = ⟨none, some (attachmentDisposition tapLegacyFileName)⟩) := by
  unfold tapLegacyHandler at h
  split at h
  · rename_i e heq
    cases hdc : legacyCatch e <;> rw [hdc] at h <;> simp [catchResultToOutcome] at h
  · split at h
    · rename_i e heq
      cases hdc : legacyCatch e <;> rw [hdc] at h <;> simp [catchResultToOutcome] at h
    · split at h
      · rename_i hua
        left
        simp only [Outcome.streamed.injEq] at h
        exact ⟨hua, h.1.symm⟩
      · rename_i hua
        right
        simp only [Outcome.streamed.injEq] at h
        exact ⟨Bool.of_not_eq_true hua, h.1.symm⟩

/-- Shape of every streamed response of the remote-origin handler of
src/unnamed/part_001. -/
theorem remoteTapCardHandler_streamed_shape (fetch : String → FetchResult)
    (userAgentHeader : Option String) (cardName : String)
    (hdrs : Headers) (body : List Nat)
    (h : remoteTapCardHandler fetch userAgentHeader cardName
      = Outcome.streamed hdrs body) :
    (jsIncludes (userAgentHeader.getD "") "iPhone" = true
      ∧ hdrs = ⟨some "text/vcard", none⟩)
    ∨ (jsIncludes (userAgentHeader.getD "") "iPhone" = false
      ∧ hdrs = ⟨none, some (attachmentDisposition (tapFileName cardName))⟩) := by
  unfold remoteTapCardHandler at h
  split at h
  · rename_i e heq
    cases hdc : remoteCatch e <;> rw [hdc] at h <;> simp [catchResultToOutcome] at h
  · split at h
    · rename_i hua
      left
      simp only [Outcome.streamed.injEq] at h
      exact ⟨hua, h.1.symm⟩
    · rename_i hua
      right
      simp only [Outcome.streamed.injEq] at h
      exact ⟨Bool.of_not_eq_true hua, h.1.symm⟩

/-- An inline header block matches the category of a client identifier
that contains the iPhone substring, and only the inline scheme. -/
theorem schemeMatchesCategory_inline (userAgentHeader : Option String)
    (hua : jsIncludes (userAgentHeader.getD "") "iPhone" = true) :
    schemeMatchesCategory userAgentHeader ⟨some "text/vcard", none⟩ := by
  unfold schemeMatchesCategory
  left
  refine ⟨by simp [classifyHeader, classify, hua], ⟨rfl, rfl⟩, ?_⟩
  rintro ⟨f, hf⟩
  simp at hf

/-- An attachment header block matches the category of a client
identifier without the iPhone substring, and only the download scheme. -/
theorem schemeMatchesCategory_download (userAgentHeader : Option String)
    (fileName : String)
    (hua : jsIncludes (userAgentHeader.getD "") "iPhone" = false) :
    schemeMatchesCategory userAgentHeader ⟨none, some (attachmentDisposition fileName)⟩ := by
  unfold schemeMatchesCategory
  right
  refine ⟨by simp [classifyHeader, classify, hua], ⟨fileName, rfl⟩, ?_⟩
  rintro ⟨hct, _⟩
  simp at hct

/-! ## Claim theorems -/

/-- C1: for every client-identifier header, the classifier returns
InlineView if and only if the header string contains the case-sensitive
substring iPhone; every other string, including the empty string and an
absent header defaulted to empty, yields ForceDownload.  The classifier
is a total Lean function of that one header, so it is pure and never
fails. -/
theorem c1_classifier_substring_iff (userAgentHeader : Option String) :
    (classifyHeader userAgentHeader = DeliveryCategory.InlineView
      ↔ "iPhone".toList <:+: (userAgentHeader.getD "").toList)
    ∧ (classifyHeader userAgentHeader = DeliveryCategory.ForceDownload
      ↔ ¬ ("iPhone".toList <:+: (userAgentHeader.getD "").toList))
    ∧ classifyHeader none = DeliveryCategory.ForceDownload := by
  exact ⟨classify_inline_iff _, classify_force_iff _, by decide⟩

/-- C1 witness: a concrete header containing iPhone classifies as
InlineView, and the empty default classifies as ForceDownload. -/
theorem c1_classifier_substring_iff_witness :
    classifyHeader (some "Mozilla/5.0 (iPhone; CPU iPhone OS 16_0 like Mac OS X)")
      = DeliveryCategory.InlineView
    ∧ classifyHeader none = DeliveryCategory.ForceDownload := by
  refine ⟨?_, (c1_classifier_substring_iff none).2.2⟩
  exact (c1_classifier_substring_iff
    (some "Mozilla/5.0 (iPhone; CPU iPhone OS 16_0 like Mac OS X)")).1.mpr (by decide)

/-- C2 counterexample: a fetch failure whose error value is not an axios
404 response and carries no message field makes the catch block of the
dynamic Supabase endpoint throw, so that request produces no HTTP 500
JSON response (nor any structured response at all), refuting the claim
that every other resolution or fetch failure yields HTTP 500. -/
theorem c2_counterexample_messageless_failure :
    tapCardHandler cfgPublic signAlways fetchErrNoMsg (some "curl/8.0") "anand"
      = Outcome.crashed
    ∧ Outcome.crashed
      ≠ Outcome.errorResponse 500 "Internal Server Error" "Could not retrieve the contact card."
    ∧ Outcome.crashed
      ≠ Outcome.errorResponse 404 "Not Found" "The requested contact card does not exist." := by
  refine ⟨by decide, by decide, by decide⟩

/-- C2 amended: provided the caught error carries a message string, the
dynamic-endpoint catch block of src/server.js responds either 404 Not
Found or 500 Internal Server Error, and it responds 404 exactly when the
error is an axios response with status 404 or its message contains the
substring not found; the remote-origin variant catch block
(src/unnamed/part_001) is total without that proviso, answering 404
exactly on upstream status 404 and 500 otherwise. -/
theorem c2_error_status_mapping (e : JsError) (m : String) (hm : e.message = some m) :
    (dynamicCatch e = notFoundResponse ∨ dynamicCatch e = serverErrorResponse)
    ∧ (dynamicCatch e = notFoundResponse
        ↔ ((e.isAxiosError = true ∧ e.responseStatus = some 404)
            ∨ "not found".toList <:+: m.toList))
    ∧ (∀ e2 : JsError,
        (e2.responseStatus = some 404 → remoteCatch e2 = notFoundResponse)
        ∧ (e2.responseStatus ≠ some 404 → remoteCatch e2 = serverErrorResponse)) := by
  have hne : notFoundResponse ≠ serverErrorResponse := by decide
  refine ⟨?_, ?_, ?_⟩
  · unfold dynamicCatch
    rw [hm]
    by_cases hax : (e.isAxiosError && e.responseStatus == some 404) = true
    · simp [hax]
    · simp only [hax, if_false, Bool.false_eq_true]
      by_cases hnf : jsIncludes m "not found" = true
      · simp [hnf]
      · simp [hnf]
  · unfold dynamicCatch
    rw [hm]
    by_cases hax : (e.isAxiosError && e.responseStatus == some 404) = true
    · simp only [hax, if_true]
      simp only [Bool.and_eq_true, beq_iff_eq] at hax
      simp [hax]
    · simp only [hax, if_false, Bool.false_eq_true]
      by_cases hnf : jsIncludes m "not found" = true
      · simp only [hnf, if_true, true_iff]
        exact Or.inr ((jsIncludes_iff m "not found").mp hnf)
      · simp only [hnf, if_false, Bool.false_eq_true]
        constructor
        · intro hcontr
          exact absurd hcontr.symm hne
        · rintro (⟨ha, hs⟩ | hinf)
          · exact absurd (by simp [ha, hs]) hax
          · exact absurd ((jsIncludes_iff m "not found").mpr hinf) hnf
  · intro e2
    constructor
    · intro hs
      simp [remoteCatch, hs]
    · intro hs
      have : (e2.responseStatus == some 404) = false := by
        simpa using hs
      simp [remoteCatch, this]

/-- C2 witness: the amended mapping evaluated at a concrete axios 404
error value. -/
theorem c2_error_status_mapping_witness :
    dynamicCatch ⟨true, some 404, some "Request failed with status code 404"⟩
      = notFoundResponse := by
  exact (c2_error_status_mapping ⟨true, some 404, some "Request failed with status code 404"⟩
    "Request failed with status code 404" rfl).2.1.mpr (Or.inl ⟨rfl, rfl⟩)

/-- C3: for every request of every variant, exactly one delivery
category is assigned and it selects exactly one header scheme before
body bytes are written: InlineView gives content type text/vcard and no
content disposition, ForceDownload gives an attachment content
disposition, and no response satisfies both schemes.  This covers every
streamed response of the dynamic and legacy Supabase handlers
(src/server.js), every streamed response of the remote-origin handler
(src/unnamed/part_001), and the header selection of the local-file GET
/tap handler (src/unnamed/part_000) on every request; the header-setting
event precedes the streaming event in the request trace. -/
theorem c3_one_category_one_scheme (userAgentHeader : Option String) :
    (∀ (cfg : Config) (sign : String → String → Nat → SignResult)
        (fetch : String → FetchResult) (cardName : String)
        (hdrs : Headers) (body : List Nat),
      tapCardHandler cfg sign fetch userAgentHeader cardName
          = Outcome.streamed hdrs body →
      schemeMatchesCategory userAgentHeader hdrs)
    ∧ (∀ (cfg : Config) (sign : String → String → Nat → SignResult)
        (fetch : String → FetchResult) (hdrs : Headers) (body : List Nat),
      tapLegacyHandler cfg sign fetch userAgentHeader
          = Outcome.streamed hdrs body →
      schemeMatchesCategory userAgentHeader hdrs)
    ∧ (∀ (fetch : String → FetchResult) (cardName : String)
        (hdrs : Headers) (body : List Nat),
      remoteTapCardHandler fetch userAgentHeader cardName
          = Outcome.streamed hdrs body →
      schemeMatchesCategory userAgentHeader hdrs)
    ∧ schemeMatchesCategory userAgentHeader (localTapHeaders userAgentHeader)
    ∧ List.Sublist [Event.setHeadersEv, Event.streamBody] (requestTrace true true) := by
  refine ⟨?_, ?_, ?_, ?_, by decide⟩
  · intro cfg sign fetch cardName hdrs body h
    rcases tapCardHandler_streamed_shape cfg sign fetch userAgentHeader cardName hdrs body h with
      ⟨hua, rfl⟩ | ⟨hua, rfl⟩
    · exact schemeMatchesCategory_inline userAgentHeader hua
    · exact schemeMatchesCategory_download userAgentHeader (tapFileName cardName) hua
  · intro cfg sign fetch hdrs body h
    rcases tapLegacyHandler_streamed_shape cfg sign fetch userAgentHeader hdrs body h with
      ⟨hua, rfl⟩ | ⟨hua, rfl⟩
    · exact schemeMatchesCategory_inline userAgentHeader hua
    · exact schemeMatchesCategory_download userAgentHeader tapLegacyFileName hua
  · intro fetch cardName hdrs body h
    rcases remoteTapCardHandler_streamed_shape fetch userAgentHeader cardName hdrs body h with
      ⟨hua, rfl⟩ | ⟨hua, rfl⟩
    · exact schemeMatchesCategory_inline userAgentHeader hua
    · exact schemeMatchesCategory_download userAgentHeader (tapFileName cardName) hua
  · unfold localTapHeaders
    cases hua : jsIncludes (userAgentHeader.getD "") "iPhone" with
    | false =>
      rw [if_neg (by simp [hua])]
      exact schemeMatchesCategory_download userAgentHeader localVcfFileName hua
    | true =>
      rw [if_pos (by simp [hua])]
      exact schemeMatchesCategory_inline userAgentHeader hua

/-- C3 witness: the per-variant guarantees evaluated at a concrete
iPhone client identifier, on a concrete streamed response of the dynamic
Supabase endpoint and on the local-file header selection. -/
theorem c3_one_category_one_scheme_witness :
    schemeMatchesCategory (some "iPhone") ⟨some "text/vcard", none⟩
    ∧ schemeMatchesCategory (some "iPhone") (localTapHeaders (some "iPhone")) := by
  refine ⟨?_, (c3_one_category_one_scheme (some "iPhone")).2.2.2.1⟩
  exact (c3_one_category_one_scheme (some "iPhone")).1 cfgPublic signAlways fetchOk66 "anand"
    ⟨some "text/vcard", none⟩ [66] (by decide)

/-- C4 counterexample: on the legacy Supabase endpoint the default
artifact name is demo (its object key demo.vcf is built exactly like the
dynamic endpoint builds cardName plus the .vcf extension), yet a
ForceDownload request is answered with the fixed display filename
Anand_Bhutkar_Contact.vcf, not demo_Contact.vcf, refuting the claim for
the legacy endpoint. -/
theorem c4_counterexample_legacy_filename :
    tapLegacyHandler cfgPublic signAlways fetchOk66 (some "Mozilla/5.0 (Linux; Android 13)")
      = Outcome.streamed ⟨none, some (attachmentDisposition tapLegacyFileName)⟩ [66]
    ∧ tapLegacyObjectPath = tapObjectPath "demo"
    ∧ tapLegacyFileName ≠ tapFileName "demo"
    ∧ attachmentDisposition tapLegacyFileName ≠ attachmentDisposition (tapFileName "demo") := by
  refine ⟨by decide, rfl, by decide, by decide⟩

/-- C4 amended: on the dynamic endpoint every ForceDownload response
carries the attachment display filename cardName plus the fixed suffix
_Contact.vcf; the legacy endpoint instead always uses the fixed display
filename Anand_Bhutkar_Contact.vcf, which differs from its default
artifact name demo with that suffix. -/
theorem c4_download_filename :
    (∀ (cfg : Config) (sign : String → String → Nat → SignResult)
        (fetch : String → FetchResult) (userAgentHeader : Option String)
        (cardName : String) (hdrs : Headers) (body : List Nat),
      tapCardHandler cfg sign fetch userAgentHeader cardName
          = Outcome.streamed hdrs body →
      classifyHeader userAgentHeader = DeliveryCategory.ForceDownload →
      hdrs.contentDisposition
        = some (attachmentDisposition (cardName ++ "_Contact.vcf")))
    ∧ (∀ (cfg : Config) (sign : String → String → Nat → SignResult)
        (fetch : String → FetchResult) (userAgentHeader : Option String)
        (hdrs : Headers) (body : List Nat),
      tapLegacyHandler cfg sign fetch userAgentHeader
          = Outcome.streamed hdrs body →
      classifyHeader userAgentHeader = DeliveryCategory.ForceDownload →
      hdrs.contentDisposition
        = some (attachmentDisposition "Anand_Bhutkar_Contact.vcf")) := by
  constructor
  · intro cfg sign fetch userAgentHeader cardName hdrs body h hcat
    rcases tapCardHandler_streamed_shape cfg sign fetch userAgentHeader cardName hdrs body h with
      ⟨hua, rfl⟩ | ⟨hua, rfl⟩
    · simp [classifyHeader, classify, hua] at hcat
    · rfl
  · intro cfg sign fetch userAgentHeader hdrs body h hcat
    rcases tapLegacyHandler_streamed_shape cfg sign fetch userAgentHeader hdrs body h with
      ⟨hua, rfl⟩ | ⟨hua, rfl⟩
    · simp [classifyHeader, classify, hua] at hcat
    · rfl

/-- C4 witness: the dynamic endpoint part applied to the artifact anand
requested by a concrete Android client. -/
theorem c4_download_filename_witness :
    (Headers.mk none (some (attachmentDisposition (tapFileName "anand")))).contentDisposition
      = some (attachmentDisposition ("anand" ++ "_Contact.vcf")) := by
  exact c4_download_filename.1 cfgPublic signAlways fetchOk66
    (some "Mozilla/5.0 (Linux; Android 13)") "anand"
    ⟨none, some (attachmentDisposition (tapFileName "anand"))⟩ [66] (by decide) (by decide)

/-- C5 counterexample: in the successful request trace of the dynamic
proxy handlers, classification never precedes the resolution await; the
resolution step comes first and classification only follows the fetch.
Moreover a request that fails during resolution is never classified at
all, so the failure path skips the Classified state. -/
theorem c5_counterexample_classify_after_resolve :
    ¬ List.Sublist [Event.classifyUA, Event.resolveUrl] (requestTrace true true)
    ∧ List.Sublist [Event.resolveUrl, Event.classifyUA] (requestTrace true true)
    ∧ Event.classifyUA ∉ requestTrace false false
    ∧ Event.respondErrorEv ∈ requestTrace false false := by decide

/-- C5 amended: per request, the User-Agent is classified exactly when
both the resolution await and the fetch await succeed, and then only
after those two steps and before header selection and body streaming; on
a resolution or fetch failure the request reaches the error response
without ever being classified. -/
theorem c5_classification_order (resolveOk fetchOk : Bool) :
    (Event.classifyUA ∈ requestTrace resolveOk fetchOk
      ↔ (resolveOk = true ∧ fetchOk = true))
    ∧ List.Sublist [Event.resolveUrl, Event.fetchRemote, Event.classifyUA]
        (requestTrace true true)
    ∧ List.Sublist [Event.classifyUA, Event.setHeadersEv, Event.streamBody]
        (requestTrace true true)
    ∧ (Event.respondErrorEv ∈ requestTrace resolveOk fetchOk
      ↔ ¬ (resolveOk = true ∧ fetchOk = true)) := by
  cases resolveOk <;> cases fetchOk <;> exact ⟨by decide, by decide, by decide, by decide⟩

/-- C5 amended witness: the order facts evaluated on the success trace. -/
theorem c5_classification_order_witness :
    Event.classifyUA ∈ requestTrace true true
    ∧ List.Sublist [Event.resolveUrl, Event.fetchRemote, Event.classifyUA]
        (requestTrace true true) := by
  exact ⟨(c5_classification_order true true).1.mpr ⟨rfl, rfl⟩,
    (c5_classification_order true true).2.1⟩

/-- C6: when the storage URL configuration is absent (or empty, which is
equally falsy), both artifact-serving endpoints of src/server.js respond
HTTP 500 with the structured JSON error body, the underlying failure
being the thrown configuration error whose message is Supabase URL not
configured; GET /health still answers 200 with the supplied timestamp,
independent of configuration, storage and upstream availability since it
consults none of them. -/
theorem c6_missing_config_500_health_200 (cfg : Config)
    (hcfg : jsTruthy cfg.supabaseUrl = false)
    (sign : String → String → Nat → SignResult) (fetch : String → FetchResult)
    (userAgentHeader : Option String) (cardName : String) (now : String) :
    getFetchableUrlForVcf cfg sign (tapObjectPath cardName)
      = Except.error configurationError
    ∧ tapCardHandler cfg sign fetch userAgentHeader cardName
      = Outcome.errorResponse 500 "Internal Server Error" "Could not retrieve the contact card."
    ∧ tapLegacyHandler cfg sign fetch userAgentHeader
      = Outcome.errorResponse 500 "Internal Server Error" "Could not retrieve the contact card."
    ∧ healthHandler now
      = (200, ⟨"healthy", now, "Remote vCard Proxy Service", "7.0.0"⟩) := by
  have hres : ∀ p, getFetchableUrlForVcf cfg sign p = Except.error configurationError := by
    intro p
    simp [getFetchableUrlForVcf, hcfg]
  have hdc : dynamicCatch configurationError = serverErrorResponse := by decide
  have hlc : legacyCatch configurationError = serverErrorResponse := by decide
  refine ⟨hres _, ?_, ?_, rfl⟩
  · unfold tapCardHandler
    rw [hres]
    show catchResultToOutcome (dynamicCatch configurationError)
      = Outcome.errorResponse 500 "Internal Server Error" "Could not retrieve the contact card."
    rw [hdc]
    rfl
  · unfold tapLegacyHandler
    rw [hres]
    show catchResultToOutcome (legacyCatch configurationError)
      = Outcome.errorResponse 500 "Internal Server Error" "Could not retrieve the contact card."
    rw [hlc]
    rfl

/-- C6 witness: the theorem evaluated at the unset configuration with
concrete oracles, client identifier, artifact name and clock. -/
theorem c6_missing_config_witness :
    tapCardHandler cfgUnset signAlways fetchOk66 (some "curl/8.0") "anand"
      = Outcome.errorResponse 500 "Internal Server Error" "Could not retrieve the contact card."
    ∧ healthHandler "2026-10-11T00:00:00.000Z"
      = (200, ⟨"healthy", "2026-10-11T00:00:00.000Z", "Remote vCard Proxy Service", "7.0.0"⟩) := by
  have h := c6_missing_config_500_health_200 cfgUnset rfl signAlways fetchOk66
    (some "curl/8.0") "anand" "2026-10-11T00:00:00.000Z"
  exact ⟨h.2.1, h.2.2.2⟩

/-- C7: with the storage URL configured, the resolver of src/server.js
uses the object key cardName plus the fixed extension .vcf inside the
single configured bucket; when the bucket is public the resolved source
URL is the deterministic public object path, computed without consulting
the signing oracle (the result is identical under every signing oracle,
so no network round-trip is involved); when the bucket is private the
result is exactly whatever the signing oracle returns for this request
at the fixed expiry of 60 seconds, so a fresh signed URL is obtained
from the provider on every request and never taken from a cache. -/
theorem c7_resolver_public_private (cfg : Config)
    (sign sign2 : String → String → Nat → SignResult) (cardName : String)
    (htru : jsTruthy cfg.supabaseUrl = true) :
    tapObjectPath cardName = cardName ++ ".vcf"
    ∧ (cfg.publicBucket = true →
        getFetchableUrlForVcf cfg sign (tapObjectPath cardName)
          = Except.ok (buildPublicObjectUrl cfg (tapObjectPath cardName))
        ∧ getFetchableUrlForVcf cfg sign (tapObjectPath cardName)
          = getFetchableUrlForVcf cfg sign2 (tapObjectPath cardName))
    ∧ (cfg.publicBucket = false →
        getFetchableUrlForVcf cfg sign (tapObjectPath cardName)
          = match sign cfg.bucket (tapObjectPath cardName) 60 with
            | SignResult.ok u => Except.ok u
            | SignResult.err e => Except.error e) := by
  refine ⟨rfl, ?_, ?_⟩
  · intro hpb
    constructor <;> simp [getFetchableUrlForVcf, htru, hpb]
  · intro hpb
    simp [getFetchableUrlForVcf, htru, hpb]

/-- C7 witness: the resolver evaluated on the public and the private
concrete configurations. -/
theorem c7_resolver_witness :
    getFetchableUrlForVcf cfgPublic signAlways (tapObjectPath "anand")
      = Except.ok (buildPublicObjectUrl cfgPublic (tapObjectPath "anand"))
    ∧ getFetchableUrlForVcf cfgPrivate signAlways (tapObjectPath "anand")
      = match signAlways cfgPrivate.bucket (tapObjectPath "anand") 60 with
        | SignResult.ok u => Except.ok u
        | SignResult.err e => Except.error e := by
  exact ⟨((c7_resolver_public_private cfgPublic signAlways signAlways "anand" rfl).2.1 rfl).1,
    (c7_resolver_public_private cfgPrivate signAlways signAlways "anand" rfl).2.2 rfl⟩

/-- C8: once response headers have been sent, no code path of the
repository writes a second status or body.  In the local-file variant the
error callbacks of both delivery branches only log when res.headersSent
is true, writing a 500 only in the pre-header case; in the proxy
variants the error response and the header-setting step are mutually
exclusive across all request traces: the catch block can only run before
headers are set, so a mid-stream failure never reaches a status write. -/
theorem c8_no_second_status_after_headers (resolveOk fetchOk : Bool) :
    sendFileErrCallback true = [LocalAction.logError]
    ∧ downloadErrCallback true = [LocalAction.logError]
    ∧ (∀ status body, LocalAction.writeStatus status body ∉ sendFileErrCallback true)
    ∧ (∀ status body, LocalAction.writeStatus status body ∉ downloadErrCallback true)
    ∧ ¬ (Event.setHeadersEv ∈ requestTrace resolveOk fetchOk
        ∧ Event.respondErrorEv ∈ requestTrace resolveOk fetchOk) := by
  refine ⟨rfl, rfl, ?_, ?_, ?_⟩
  · intro status body hmem
    simp [sendFileErrCallback] at hmem
  · intro status body hmem
    simp [downloadErrCallback] at hmem
  · cases resolveOk <;> cases fetchOk <;> decide

/-- C8 witness: the guarantees evaluated on the fully successful trace. -/
theorem c8_no_second_status_witness :
    sendFileErrCallback true = [LocalAction.logError]
    ∧ ¬ (Event.setHeadersEv ∈ requestTrace true true
        ∧ Event.respondErrorEv ∈ requestTrace true true) := by
  exact ⟨(c8_no_second_status_after_headers true true).1,
    (c8_no_second_status_after_headers true true).2.2.2.2⟩

/-- C9: the dynamic endpoints use the path-segment artifact name verbatim
to build the storage key (src/server.js) and the remote fetch URL
(src/unnamed/part_001), for every name without exception; in particular
a path-traversal-style name is neither rejected nor altered and flows
into resolution and streaming like any other name. -/
theorem c9_artifact_name_verbatim (cardName : String) :
    tapObjectPath cardName = cardName ++ ".vcf"
    ∧ remoteFileUrlFor cardName = VCARD_BASE_URL ++ "/" ++ cardName ++ ".vcf"
    ∧ tapObjectPath "../../etc/passwd" = "../../etc/passwd.vcf"
    ∧ tapCardHandler cfgPublic signAlways fetchOk66 (some "curl/8.0") "../../etc/passwd"
      = Outcome.streamed
          ⟨none, some (attachmentDisposition "../../etc/passwd_Contact.vcf")⟩ [66] := by
  exact ⟨rfl, rfl, rfl, by decide⟩

/-- C9 witness: the verbatim-key facts instantiated at the artifact name
anand. -/
theorem c9_artifact_name_verbatim_witness :
    tapObjectPath "anand" = "anand" ++ ".vcf"
    ∧ remoteFileUrlFor "anand" = VCARD_BASE_URL ++ "/" ++ "anand" ++ ".vcf" := by
  exact ⟨(c9_artifact_name_verbatim "anand").1, (c9_artifact_name_verbatim "anand").2.1⟩

/-- C10: the dynamic-endpoint catch block of src/server.js is not total:
on an error value that is not an axios 404 response and whose message
field is undefined, evaluating error.message.includes itself throws, so
no structured 404 or 500 response is produced; and an error whose
message merely contains the substring not found, even a non-not-found
upstream failure carrying response status 502, is mapped to 404 rather
than 500. -/
theorem c10_catch_nontotal_and_substring_404 :
    dynamicCatch ⟨false, none, none⟩ = CatchResult.handlerThrow
    ∧ CatchResult.handlerThrow ≠ notFoundResponse
    ∧ CatchResult.handlerThrow ≠ serverErrorResponse
    ∧ dynamicCatch ⟨false, some 502, some "connection to upstream pool not found"⟩
      = CatchResult.respond 404 "Not Found" "The requested contact card does not exist." := by
  refine ⟨rfl, by decide, by decide, by decide⟩

end TapCard
